import Mathlib

/-!
Verification of the `exec` command of the `click` cluster-object browser
(src/command/exec.rs), shallowly embedded in Lean 4.

The embedding mirrors the source:
* `resolveFlag` / `itArgOf` — the tty/stdin flag resolution and the
  `(tty, stdin)` → attach-token match (exec.rs lines 179–204);
* `inlineArgs` / `terminalTargs` — the argument vectors built for the
  inline `Command::new("kubectl")` path and the spawned-terminal `duct`
  path (exec.rs lines 52–95);
* `do_exec` — the per-pod operation, parametric in a `World` oracle that
  supplies the outcome of the external process launches;
* `execCommand` — the `Exec` command handler: context check, flag
  resolution and fan-out over the selection (exec.rs lines 176–233).
-/

/-- One cluster object, as `KObj` is used by exec.rs: a display name, an
optional namespace, and the pod-kind predicate `is_pod`. -/
structure KObj where
  name : String
  namespace_ : Option String
  isPod : Bool
deriving DecidableEq, Repr

/-- The error type as exec.rs constructs it: `ClickError::CommandError`
with a message, or `ClickError::Io` wrapping an I/O error kind. -/
inductive IoErrorKind where
  | notFound
  | other (desc : String)
deriving DecidableEq, Repr

inductive ClickError where
  | CommandError (msg : String)
  | ioWrap (e : IoErrorKind)
deriving DecidableEq, Repr

/-- One external process launch: program name plus ordered arguments. -/
structure Invocation where
  prog : String
  args : List String
deriving DecidableEq, Repr

/-- Result of `Command::status()` on the inline path: the child launched
and reported a success bit, or the launch failed with an I/O error. -/
inductive LaunchResult where
  | launched (success : Bool)
  | failed (e : IoErrorKind)
deriving DecidableEq, Repr

/-- Oracle for the external world: what `command.status()` returns for an
invocation, and whether `duct ... .start()` succeeds (`none`) or fails
with an I/O error (`some e`). -/
structure World where
  runStatus : Invocation → LaunchResult
  startDetached : Invocation → Option IoErrorKind

/-- A tri-state boolean-ish command-line input, after clap validation:
absent, present with no value, or present with a (validated) boolean. -/
inductive FlagInput where
  | absent
  | presentNoValue
  | presentWith (v : Bool)
deriving DecidableEq, Repr

/-- Flag resolution from the Exec handler (exec.rs lines 179–198):
absent → true, present with no value → true, otherwise the parsed value. -/
def resolveFlag : FlagInput → Bool
  | .absent => true
  | .presentNoValue => true
  | .presentWith v => v

/-- The `(tty, stdin)` → token match (exec.rs lines 199–204). -/
def itArgOf (tty stdin_ : Bool) : String :=
  match tty, stdin_ with
  | true, true => "-it"
  | true, false => "-t"
  | false, true => "-i"
  | false, false => ""

/-- Accumulator for `splitWhitespace`: walk the characters, flushing the
reversed accumulator as a word at each whitespace run and at the end. -/
def splitWhitespaceAux (cs : List Char) (acc : List Char) : List String :=
  match cs with
  | [] => if acc = [] then [] else [⟨acc.reverse⟩]
  | c :: rest =>
    if c.isWhitespace then
      (if acc = [] then [] else [⟨acc.reverse⟩]) ++ splitWhitespaceAux rest []
    else splitWhitespaceAux rest (c :: acc)

/-- Rust `str::split_whitespace`: split on whitespace runs, yielding only
the non-empty words. -/
def splitWhitespace (s : String) : List String :=
  splitWhitespaceAux s.data []

/-- Terminal launcher selection (exec.rs lines 53–59): the `--terminal`
value if given, else the configured default, else `"xterm -e"`. -/
def terminalChoice (termOpt configTerminal : Option String) : String :=
  match termOpt with
  | some t => t
  | none =>
    match configTerminal with
    | some t => t
    | none => "xterm -e"

/-- The `-c CONT` pair when a container override is present. -/
def containerPart : Option String → List String
  | some c => ["-c", c]
  | none => []

/-- Arguments of the inline `Command::new("kubectl")` invocation
(exec.rs lines 82–95): namespace, context, `exec`, the attach token
(always passed, even when empty), pod name, optional container pair,
`--`, then the remote command words. -/
def inlineArgs (ns kluster itArg podName : String) (contOpt : Option String)
    (cmd : List String) : List String :=
  ["--namespace", ns, "--context", kluster, "exec", itArg, podName]
    ++ containerPart contOpt ++ ["--"] ++ cmd

def inlineInvocation (ns kluster itArg podName : String) (contOpt : Option String)
    (cmd : List String) : Invocation :=
  ⟨"kubectl", inlineArgs ns kluster itArg podName contOpt cmd⟩

/-- The full `targs` vector of the spawned-terminal path (exec.rs lines
60–77): the launcher split on whitespace, then the kubectl argument list
headed by the program name `"kubectl"`, container pair, `--`, command. -/
def terminalTargs (terminal ns kluster itArg podName : String)
    (contOpt : Option String) (cmd : List String) : List String :=
  splitWhitespace terminal
    ++ ["kubectl", "--namespace", ns, "--context", kluster, "exec", itArg, podName]
    ++ containerPart contOpt ++ ["--"] ++ cmd

/-- The invocation handed to `duct::cmd(targs[0], &targs[1..])`
(exec.rs line 79). `targs` is never empty since the kubectl list is not. -/
def terminalInvocation (configTerminal termOpt : Option String)
    (ns kluster itArg podName : String) (contOpt : Option String)
    (cmd : List String) : Invocation :=
  ⟨(terminalTargs (terminalChoice termOpt configTerminal)
      ns kluster itArg podName contOpt cmd).headD "",
   (terminalTargs (terminalChoice termOpt configTerminal)
      ns kluster itArg podName contOpt cmd).tail⟩

/-- Observable result of one `do_exec` call: the returned value (or the
`unwrap` panic on a missing namespace), the status lines written to the
session writer, and the invocation handed to a launcher, if any. -/
inductive ExecOutcome where
  | panicked
  | ok
  | err (e : ClickError)
deriving DecidableEq, Repr

structure DoExecResult where
  outcome : ExecOutcome
  statusLines : List String
  launched : Option Invocation
deriving DecidableEq, Repr

/-- `do_exec` (exec.rs lines 40–117).  The namespace is unwrapped first
(line 51); `none` there is modelled as the `panicked` outcome.  The
terminal branch writes the status line, then starts the detached process;
the inline branch runs the child and classifies the `status()` result. -/
def do_exec (configTerminal : Option String) (pod : KObj) (klusterName : String)
    (cmd : List String) (itArg : String) (contOpt termOpt : Option String)
    (doTerminal : Bool) (w : World) : DoExecResult :=
  match pod.namespace_ with
  | none => ⟨.panicked, [], none⟩
  | some ns =>
    if doTerminal then
      let inv := terminalInvocation configTerminal termOpt ns klusterName itArg
          pod.name contOpt cmd
      let line := "Starting on " ++ pod.name ++ " in terminal"
      match w.startDetached inv with
      | none => ⟨.ok, [line], some inv⟩
      | some e => ⟨.err (.ioWrap e), [line], some inv⟩
    else
      let inv := inlineInvocation ns klusterName itArg pod.name contOpt cmd
      match w.runStatus inv with
      | .launched true => ⟨.ok, [], some inv⟩
      | .launched false =>
        ⟨.err (.CommandError "kubectl exited abnormally"), [], some inv⟩
      | .failed .notFound =>
        ⟨.err (.CommandError "Could not find kubectl binary. Is it in your PATH?"),
          [], some inv⟩
      | .failed (.other d) => ⟨.err (.ioWrap (.other d)), [], some inv⟩

/-- Environment state the Exec handler reads: the active context, the
configured default terminal, and the current selection. -/
structure Env where
  context : Option String
  clickConfigTerminal : Option String
  selection : List KObj

/-- The per-object closure passed to `apply_to_selection` (exec.rs lines
208–226): run `do_exec` on pods, fail immediately on anything else. -/
def execPerObject (env : Env) (ctxName : String) (cmd : List String)
    (itArg : String) (container terminalOpt : Option String)
    (terminalPresent : Bool) (w : World) (obj : KObj) : DoExecResult :=
  if obj.isPod then
    do_exec env.clickConfigTerminal obj ctxName cmd itArg container terminalOpt
      terminalPresent w
  else
    ⟨.err (.CommandError "Exec only possible on pods"), [], none⟩

/-- Modelled from the spec: `Env::apply_to_selection` (env.rs, not under
src/) "applies a per-object operation across the current multi-object
selection"; it applies the operation to every selected object in order. -/
def applyToSelection (selection : List KObj) (op : KObj → DoExecResult) :
    List DoExecResult :=
  selection.map op

structure ExecRunResult where
  topError : Option ClickError
  perObject : List DoExecResult
deriving DecidableEq, Repr

/-- The Exec handler body (exec.rs lines 176–233): if no context is
active, fail at once; otherwise resolve the tty/stdin flags to the attach
token and fan `execPerObject` out over the selection. -/
def execCommand (env : Env) (cmdWords : List String) (ttyIn stdinIn : FlagInput)
    (container terminalOpt : Option String) (terminalPresent : Bool)
    (w : World) : ExecRunResult :=
  match env.context with
  | some ctxName =>
    let itArg := itArgOf (resolveFlag ttyIn) (resolveFlag stdinIn)
    ⟨none, applyToSelection env.selection
      (execPerObject env ctxName cmdWords itArg container terminalOpt
        terminalPresent w)⟩
  | none => ⟨some (.CommandError "Need an active context in order to exec."), []⟩

/-- Total process launches attempted across a batch of per-object results. -/
def launchesAttempted (rs : List DoExecResult) : Nat :=
  (rs.filterMap (fun r => r.launched)).length

/-- C1: for every combination of the tty and stdin inputs, the resolved
attach token is "-it" / "-t" / "-i" / "" per the (tty, stdin) table;
absent or present-without-value inputs resolve to true, so in particular
both flags absent yields "-it". -/
theorem attach_token_table (t s : FlagInput) :
    (resolveFlag t = true → resolveFlag s = true →
      itArgOf (resolveFlag t) (resolveFlag s) = "-it") ∧
    (resolveFlag t = true → resolveFlag s = false →
      itArgOf (resolveFlag t) (resolveFlag s) = "-t") ∧
    (resolveFlag t = false → resolveFlag s = true →
      itArgOf (resolveFlag t) (resolveFlag s) = "-i") ∧
    (resolveFlag t = false → resolveFlag s = false →
      itArgOf (resolveFlag t) (resolveFlag s) = "") ∧
    (t = .absent ∨ t = .presentNoValue → resolveFlag t = true) ∧
    itArgOf (resolveFlag .absent) (resolveFlag .absent) = "-it" := by
  cases t with
  | absent => cases s with
    | absent => simp [resolveFlag, itArgOf]
    | presentNoValue => simp [resolveFlag, itArgOf]
    | presentWith v => cases v <;> simp [resolveFlag, itArgOf]
  | presentNoValue => cases s with
    | absent => simp [resolveFlag, itArgOf]
    | presentNoValue => simp [resolveFlag, itArgOf]
    | presentWith v => cases v <;> simp [resolveFlag, itArgOf]
  | presentWith u => cases u <;> cases s with
    | absent => simp [resolveFlag, itArgOf]
    | presentNoValue => simp [resolveFlag, itArgOf]
    | presentWith v => cases v <;> simp [resolveFlag, itArgOf]

/-- Witness for `attach_token_table` at concrete inputs. -/
theorem attach_token_table_witness :
    itArgOf (resolveFlag .absent) (resolveFlag (.presentWith false)) = "-t" :=
  (attach_token_table .absent (.presentWith false)).2.1 rfl rfl

/-- Helper: with a present namespace, the inline branch of `do_exec` is
exactly the classification of `runStatus` on the inline invocation. -/
theorem do_exec_inline_eq (configTerminal : Option String) (pod : KObj)
    (ns kluster itArg : String) (cmd : List String)
    (contOpt termOpt : Option String) (w : World)
    (hns : pod.namespace_ = some ns) :
    do_exec configTerminal pod kluster cmd itArg contOpt termOpt false w =
      match w.runStatus (inlineInvocation ns kluster itArg pod.name contOpt cmd) with
      | .launched true =>
        ⟨.ok, [], some (inlineInvocation ns kluster itArg pod.name contOpt cmd)⟩
      | .launched false =>
        ⟨.err (.CommandError "kubectl exited abnormally"), [],
          some (inlineInvocation ns kluster itArg pod.name contOpt cmd)⟩
      | .failed .notFound =>
        ⟨.err (.CommandError "Could not find kubectl binary. Is it in your PATH?"),
          [], some (inlineInvocation ns kluster itArg pod.name contOpt cmd)⟩
      | .failed (.other d) =>
        ⟨.err (.ioWrap (.other d)), [],
          some (inlineInvocation ns kluster itArg pod.name contOpt cmd)⟩ := by
  unfold do_exec
  rw [hns]
  rfl

/-- Helper: with a present namespace, the terminal branch of `do_exec`
writes the status line and classifies the `startDetached` result. -/
theorem do_exec_terminal_eq (configTerminal : Option String) (pod : KObj)
    (ns kluster itArg : String) (cmd : List String)
    (contOpt termOpt : Option String) (w : World)
    (hns : pod.namespace_ = some ns) :
    do_exec configTerminal pod kluster cmd itArg contOpt termOpt true w =
      match w.startDetached (terminalInvocation configTerminal termOpt ns kluster
          itArg pod.name contOpt cmd) with
      | none =>
        ⟨.ok, ["Starting on " ++ pod.name ++ " in terminal"],
          some (terminalInvocation configTerminal termOpt ns kluster itArg
            pod.name contOpt cmd)⟩
      | some e =>
        ⟨.err (.ioWrap e), ["Starting on " ++ pod.name ++ " in terminal"],
          some (terminalInvocation configTerminal termOpt ns kluster itArg
            pod.name contOpt cmd)⟩ := by
  unfold do_exec
  rw [hns]
  rfl

/-- Helper: the spawned program and its arguments, re-joined, are exactly
the `targs` vector (which is never empty). -/
theorem terminalInvocation_join (configTerminal termOpt : Option String)
    (ns kluster itArg podName : String) (contOpt : Option String)
    (cmd : List String) :
    (terminalInvocation configTerminal termOpt ns kluster itArg podName
        contOpt cmd).prog ::
      (terminalInvocation configTerminal termOpt ns kluster itArg podName
        contOpt cmd).args =
    terminalTargs (terminalChoice termOpt configTerminal) ns kluster itArg
      podName contOpt cmd := by
  have hne : terminalTargs (terminalChoice termOpt configTerminal) ns kluster
      itArg podName contOpt cmd ≠ [] := by
    unfold terminalTargs
    cases splitWhitespace (terminalChoice termOpt configTerminal) <;> simp
  cases h : terminalTargs (terminalChoice termOpt configTerminal) ns kluster
      itArg podName contOpt cmd with
  | nil => exact absurd h hne
  | cons a l => simp [terminalInvocation, h]

/-- C2 counterexample: with tty=false and stdin=false the resolved token
is empty, yet the built inline argument vector still contains it as an
empty argument between "exec" and the pod name — the claim says it is
omitted entirely, but exec.rs line 89 passes `it_arg` unconditionally. -/
theorem empty_token_passed_counterexample :
    itArgOf false false = "" ∧
    inlineArgs "ns1" "prod" (itArgOf false false) "mypod" none ["ls"]
      = ["--namespace", "ns1", "--context", "prod", "exec", "", "mypod",
         "--", "ls"] ∧
    inlineArgs "ns1" "prod" (itArgOf false false) "mypod" none ["ls"]
      ≠ ["--namespace", "ns1", "--context", "prod", "exec", "mypod",
         "--", "ls"] := by
  refine ⟨rfl, rfl, ?_⟩
  decide

/-- C2 (amended): every built invocation follows the fixed order
namespace flag + value, context flag + value, subcommand, attach token,
object name (then container pair, separator, command words); the attach
token occupies its position even when it is the empty token, i.e. an
empty argument is passed rather than omitted. -/
theorem invocation_arg_order (configTerminal : Option String) (pod : KObj)
    (ns kluster itArg : String) (cmd : List String)
    (contOpt termOpt : Option String) (doTerminal : Bool) (w : World)
    (hns : pod.namespace_ = some ns) :
    (do_exec configTerminal pod kluster cmd itArg contOpt termOpt doTerminal
        w).launched
      = some (if doTerminal then
          terminalInvocation configTerminal termOpt ns kluster itArg pod.name
            contOpt cmd
        else inlineInvocation ns kluster itArg pod.name contOpt cmd) ∧
    (inlineInvocation ns kluster itArg pod.name contOpt cmd).prog = "kubectl" ∧
    (inlineInvocation ns kluster itArg pod.name contOpt cmd).args
      = ["--namespace", ns, "--context", kluster, "exec", itArg, pod.name]
          ++ containerPart contOpt ++ ["--"] ++ cmd ∧
    (terminalInvocation configTerminal termOpt ns kluster itArg pod.name
        contOpt cmd).prog ::
      (terminalInvocation configTerminal termOpt ns kluster itArg pod.name
        contOpt cmd).args
      = splitWhitespace (terminalChoice termOpt configTerminal)
          ++ ["kubectl", "--namespace", ns, "--context", kluster, "exec",
              itArg, pod.name]
          ++ containerPart contOpt ++ ["--"] ++ cmd ∧
    (itArg = "" → "" ∈ (inlineInvocation ns kluster itArg pod.name contOpt
        cmd).args) := by
  refine ⟨?_, rfl, rfl, ?_, ?_⟩
  · cases doTerminal
    · rw [do_exec_inline_eq configTerminal pod ns kluster itArg cmd contOpt
        termOpt w hns]
      cases w.runStatus (inlineInvocation ns kluster itArg pod.name contOpt
          cmd) with
      | launched b => cases b <;> rfl
      | failed e => cases e <;> rfl
    · rw [do_exec_terminal_eq configTerminal pod ns kluster itArg cmd contOpt
        termOpt w hns]
      cases w.startDetached (terminalInvocation configTerminal termOpt ns
          kluster itArg pod.name contOpt cmd) <;> rfl
  · rw [terminalInvocation_join]
    rfl
  · intro h
    subst h
    simp [inlineInvocation, inlineArgs]

/-- Witness for `invocation_arg_order` at concrete inputs. -/
theorem invocation_arg_order_witness :
    (do_exec none ⟨"mypod", some "ns1", true⟩ "prod" ["ls"] "-it" none none
        false ⟨fun _ => .launched true, fun _ => none⟩).launched
      = some (inlineInvocation "ns1" "prod" "-it" "mypod" none ["ls"]) :=
  (invocation_arg_order none ⟨"mypod", some "ns1", true⟩ "ns1" "prod" "-it"
    ["ls"] none none false ⟨fun _ => .launched true, fun _ => none⟩ rfl).1

/-- C3: with remote command ["ls","-la"], no container, namespace "ns1",
context "prod" and both attach flags absent (resolving to "-it"), the
inline invocation launched by `do_exec` is exactly
kubectl --namespace ns1 --context prod exec -it <podname> -- ls -la,
for every pod name and every world. -/
theorem inline_example_argv (podName : String) (w : World) :
    (do_exec none ⟨podName, some "ns1", true⟩ "prod" ["ls", "-la"]
        (itArgOf (resolveFlag .absent) (resolveFlag .absent)) none none false
        w).launched
      = some ⟨"kubectl",
          ["--namespace", "ns1", "--context", "prod", "exec", "-it", podName,
           "--", "ls", "-la"]⟩ := by
  rw [do_exec_inline_eq none ⟨podName, some "ns1", true⟩ "ns1" "prod"
    (itArgOf (resolveFlag .absent) (resolveFlag .absent)) ["ls", "-la"] none
    none w rfl]
  cases w.runStatus (inlineInvocation "ns1" "prod"
      (itArgOf (resolveFlag .absent) (resolveFlag .absent)) podName none
      ["ls", "-la"]) with
  | launched b => cases b <;> rfl
  | failed e => cases e <;> rfl

/-- C4: inline execution classifies the launch result exactly as the
spec's table — success exit → ok; abnormal exit → a CommandError with no
exit-code detail; binary not found → a CommandError with the remediation
hint; any other launch-time I/O failure → an I/O error wrapping the
cause. -/
theorem inline_outcome_classification (configTerminal : Option String)
    (pod : KObj) (ns kluster itArg : String) (cmd : List String)
    (contOpt termOpt : Option String) (w : World)
    (hns : pod.namespace_ = some ns) :
    (do_exec configTerminal pod kluster cmd itArg contOpt termOpt false
        w).outcome
      = match w.runStatus (inlineInvocation ns kluster itArg pod.name contOpt
            cmd) with
        | .launched true => .ok
        | .launched false => .err (.CommandError "kubectl exited abnormally")
        | .failed .notFound =>
          .err (.CommandError "Could not find kubectl binary. Is it in your PATH?")
        | .failed (.other d) => .err (.ioWrap (.other d)) := by
  rw [do_exec_inline_eq configTerminal pod ns kluster itArg cmd contOpt
    termOpt w hns]
  cases w.runStatus (inlineInvocation ns kluster itArg pod.name contOpt
      cmd) with
  | launched b => cases b <;> rfl
  | failed e => cases e <;> rfl

/-- Witness for `inline_outcome_classification`: a child that launches
but exits with failure yields the abnormal-exit error. -/
theorem inline_outcome_classification_witness :
    (do_exec none ⟨"mypod", some "ns1", true⟩ "prod" ["ls"] "-it" none none
        false ⟨fun _ => .launched false, fun _ => none⟩).outcome
      = .err (.CommandError "kubectl exited abnormally") :=
  inline_outcome_classification none ⟨"mypod", some "ns1", true⟩ "ns1" "prod"
    "-it" ["ls"] none none ⟨fun _ => .launched false, fun _ => none⟩ rfl

/-- C5: spawned-terminal execution emits the status line
"Starting on <object> in terminal" (before the spawn — it is present even
when the spawn fails), returns ok as soon as the detached start succeeds,
classifies a start failure as an error, and its result is independent of
everything in the world except the start outcome (in particular of any
exit status the detached process may later produce). -/
theorem terminal_strategy_behavior (configTerminal : Option String)
    (pod : KObj) (ns kluster itArg : String) (cmd : List String)
    (contOpt termOpt : Option String) (w : World)
    (hns : pod.namespace_ = some ns) :
    (do_exec configTerminal pod kluster cmd itArg contOpt termOpt true
        w).statusLines
      = ["Starting on " ++ pod.name ++ " in terminal"] ∧
    (w.startDetached (terminalInvocation configTerminal termOpt ns kluster
        itArg pod.name contOpt cmd) = none →
      (do_exec configTerminal pod kluster cmd itArg contOpt termOpt true
        w).outcome = .ok) ∧
    (∀ e, w.startDetached (terminalInvocation configTerminal termOpt ns
        kluster itArg pod.name contOpt cmd) = some e →
      (do_exec configTerminal pod kluster cmd itArg contOpt termOpt true
        w).outcome = .err (.ioWrap e)) ∧
    (∀ w2 : World, w2.startDetached = w.startDetached →
      do_exec configTerminal pod kluster cmd itArg contOpt termOpt true w2
        = do_exec configTerminal pod kluster cmd itArg contOpt termOpt true
            w) := by
  have heq := do_exec_terminal_eq configTerminal pod ns kluster itArg cmd
    contOpt termOpt w hns
  refine ⟨?_, ?_, ?_, ?_⟩
  · rw [heq]
    cases w.startDetached (terminalInvocation configTerminal termOpt ns
        kluster itArg pod.name contOpt cmd) <;> rfl
  · intro h0
    rw [heq, h0]
  · intro e he
    rw [heq, he]
  · intro w2 hw2
    rw [do_exec_terminal_eq configTerminal pod ns kluster itArg cmd contOpt
      termOpt w2 hns, heq, hw2]

/-- Witness for `terminal_strategy_behavior` at concrete inputs. -/
theorem terminal_strategy_behavior_witness :
    (do_exec none ⟨"mypod", some "ns1", true⟩ "prod" ["ls"] "-it" none none
        true ⟨fun _ => .launched true, fun _ => none⟩).statusLines
      = ["Starting on mypod in terminal"] ∧
    (do_exec none ⟨"mypod", some "ns1", true⟩ "prod" ["ls"] "-it" none none
        true ⟨fun _ => .launched true, fun _ => none⟩).outcome = .ok := by
  have h := terminal_strategy_behavior none ⟨"mypod", some "ns1", true⟩ "ns1"
    "prod" "-it" ["ls"] none none ⟨fun _ => .launched true, fun _ => none⟩ rfl
  exact ⟨h.1, h.2.1 rfl⟩

/-- C6: with no active context the handler fails once with the
precondition error, before any per-object pipeline runs: the per-object
result list is empty and zero launches are attempted for the batch. -/
theorem missing_context_short_circuit (env : Env) (cmdWords : List String)
    (ttyIn stdinIn : FlagInput) (container terminalOpt : Option String)
    (terminalPresent : Bool) (w : World) (h : env.context = none) :
    (execCommand env cmdWords ttyIn stdinIn container terminalOpt
        terminalPresent w).topError
      = some (.CommandError "Need an active context in order to exec.") ∧
    (execCommand env cmdWords ttyIn stdinIn container terminalOpt
        terminalPresent w).perObject = [] ∧
    launchesAttempted (execCommand env cmdWords ttyIn stdinIn container
        terminalOpt terminalPresent w).perObject = 0 := by
  unfold execCommand
  rw [h]
  exact ⟨rfl, rfl, rfl⟩

/-- Witness for `missing_context_short_circuit`: even with a pod selected,
no per-object result is produced when the context is missing. -/
theorem missing_context_short_circuit_witness :
    (execCommand ⟨none, none, [⟨"mypod", some "ns1", true⟩]⟩ ["ls"] .absent
        .absent none none false
        ⟨fun _ => .launched true, fun _ => none⟩).perObject = [] :=
  (missing_context_short_circuit ⟨none, none, [⟨"mypod", some "ns1", true⟩]⟩
    ["ls"] .absent .absent none none false
    ⟨fun _ => .launched true, fun _ => none⟩ rfl).2.1

/-- C7: the per-object operation fails immediately with "Exec only
possible on pods" for a non-pod object — writing nothing and launching
nothing — and runs the `do_exec` pipeline exactly when the object is a
pod. -/
theorem pod_eligibility_gate (env : Env) (ctxName : String)
    (cmd : List String) (itArg : String)
    (container terminalOpt : Option String) (terminalPresent : Bool)
    (w : World) (obj : KObj) :
    (obj.isPod = false →
      execPerObject env ctxName cmd itArg container terminalOpt
          terminalPresent w obj
        = ⟨.err (.CommandError "Exec only possible on pods"), [], none⟩) ∧
    (obj.isPod = true →
      execPerObject env ctxName cmd itArg container terminalOpt
          terminalPresent w obj
        = do_exec env.clickConfigTerminal obj ctxName cmd itArg container
            terminalOpt terminalPresent w) := by
  unfold execPerObject
  constructor
  · intro h
    rw [h]
    rfl
  · intro h
    rw [h]
    rfl

/-- Witness for `pod_eligibility_gate`: a non-pod object is rejected. -/
theorem pod_eligibility_gate_witness :
    execPerObject ⟨some "prod", none, []⟩ "prod" ["ls"] "-it" none none false
        ⟨fun _ => .launched true, fun _ => none⟩ ⟨"mydeploy", some "ns1", false⟩
      = ⟨.err (.CommandError "Exec only possible on pods"), [], none⟩ :=
  (pod_eligibility_gate ⟨some "prod", none, []⟩ "prod" ["ls"] "-it" none none
    false ⟨fun _ => .launched true, fun _ => none⟩
    ⟨"mydeploy", some "ns1", false⟩).1 rfl

/-- C9: whenever the object carries a namespace, `do_exec` never reaches
its namespace failure point (the outcome is never the panic); when the
namespace is absent, `do_exec` is the unrecoverable panic — not a
user-facing classified error, with nothing written and nothing launched. -/
theorem namespace_invariant (configTerminal : Option String) (pod : KObj)
    (kluster : String) (cmd : List String) (itArg : String)
    (contOpt termOpt : Option String) (doTerminal : Bool) (w : World) :
    (∀ ns, pod.namespace_ = some ns →
      (do_exec configTerminal pod kluster cmd itArg contOpt termOpt
        doTerminal w).outcome ≠ .panicked) ∧
    (pod.namespace_ = none →
      do_exec configTerminal pod kluster cmd itArg contOpt termOpt doTerminal
        w = ⟨.panicked, [], none⟩) := by
  constructor
  · intro ns hns
    cases doTerminal
    · rw [do_exec_inline_eq configTerminal pod ns kluster itArg cmd contOpt
        termOpt w hns]
      cases w.runStatus (inlineInvocation ns kluster itArg pod.name contOpt
          cmd) with
      | launched b => cases b <;> simp
      | failed e => cases e <;> simp
    · rw [do_exec_terminal_eq configTerminal pod ns kluster itArg cmd contOpt
        termOpt w hns]
      cases w.startDetached (terminalInvocation configTerminal termOpt ns
          kluster itArg pod.name contOpt cmd) <;> simp
  · intro hns
    unfold do_exec
    rw [hns]

/-- Witness for `namespace_invariant` at concrete inputs. -/
theorem namespace_invariant_witness :
    (do_exec none ⟨"mypod", some "ns1", true⟩ "prod" ["ls"] "-it" none none
        false ⟨fun _ => .launched true, fun _ => none⟩).outcome
      ≠ .panicked :=
  (namespace_invariant none ⟨"mypod", some "ns1", true⟩ "prod" ["ls"] "-it"
    none none false ⟨fun _ => .launched true, fun _ => none⟩).1 "ns1" rfl

/-- C10: a terminal launcher that splits into zero words (empty or all
whitespace) degenerates: the spawned program is "kubectl" itself and its
arguments are the plain kubectl argument list — no wrapper at all. -/
theorem degenerate_terminal_launcher (configTerminal : Option String)
    (t ns kluster itArg podName : String) (contOpt : Option String)
    (cmd : List String) (h : splitWhitespace t = []) :
    (terminalInvocation configTerminal (some t) ns kluster itArg podName
        contOpt cmd).prog = "kubectl" ∧
    (terminalInvocation configTerminal (some t) ns kluster itArg podName
        contOpt cmd).args
      = ["--namespace", ns, "--context", kluster, "exec", itArg, podName]
          ++ containerPart contOpt ++ ["--"] ++ cmd := by
  constructor
  · simp only [terminalInvocation, terminalChoice, terminalTargs]
    rw [h]
    rfl
  · simp only [terminalInvocation, terminalChoice, terminalTargs]
    rw [h]
    rfl

/-- Witness for `degenerate_terminal_launcher`: launcher "   " is all
whitespace. -/
theorem degenerate_terminal_launcher_witness :
    (terminalInvocation none (some "   ") "ns1" "prod" "-it" "mypod" none
        ["ls"]).prog = "kubectl" :=
  (degenerate_terminal_launcher none "   " "ns1" "prod" "-it" "mypod" none
    ["ls"] rfl).1

/-- C8: the terminal launcher — the `--terminal` value when supplied,
else the configured default, else the fixed pair "xterm -e" — is split on
whitespace into its own argv and put in front of the base kubectl
argument list, the split's first word becoming the spawned program. -/
theorem terminal_launcher_resolution (configTerminal termOpt : Option String)
    (ns kluster itArg podName : String) (contOpt : Option String)
    (cmd : List String) :
    (∀ t, termOpt = some t →
      terminalTargs (terminalChoice termOpt configTerminal) ns kluster itArg
          podName contOpt cmd
        = splitWhitespace t
            ++ ["kubectl", "--namespace", ns, "--context", kluster, "exec",
                itArg, podName] ++ containerPart contOpt ++ ["--"] ++ cmd) ∧
    (∀ d, termOpt = none → configTerminal = some d →
      terminalTargs (terminalChoice termOpt configTerminal) ns kluster itArg
          podName contOpt cmd
        = splitWhitespace d
            ++ ["kubectl", "--namespace", ns, "--context", kluster, "exec",
                itArg, podName] ++ containerPart contOpt ++ ["--"] ++ cmd) ∧
    (termOpt = none → configTerminal = none →
      terminalTargs (terminalChoice termOpt configTerminal) ns kluster itArg
          podName contOpt cmd
        = ["xterm", "-e"]
            ++ ["kubectl", "--namespace", ns, "--context", kluster, "exec",
                itArg, podName] ++ containerPart contOpt ++ ["--"] ++ cmd) ∧
    (∀ t w0 ws, termOpt = some t → splitWhitespace t = w0 :: ws →
      (terminalInvocation configTerminal termOpt ns kluster itArg podName
          contOpt cmd).prog = w0 ∧
      (terminalInvocation configTerminal termOpt ns kluster itArg podName
          contOpt cmd).args
        = ws ++ ["kubectl", "--namespace", ns, "--context", kluster, "exec",
                 itArg, podName] ++ containerPart contOpt ++ ["--"]
            ++ cmd) := by
  refine ⟨?_, ?_, ?_, ?_⟩
  · intro t ht
    subst ht
    rfl
  · intro d ht hc
    subst ht
    subst hc
    rfl
  · intro ht hc
    subst ht
    subst hc
    rfl
  · intro t w0 ws ht hsplit
    subst ht
    constructor
    · simp only [terminalInvocation, terminalChoice, terminalTargs]
      rw [hsplit]
      rfl
    · simp only [terminalInvocation, terminalChoice, terminalTargs]
      rw [hsplit]
      rfl

/-- Witness for `terminal_launcher_resolution`: a two-word launcher's
first word becomes the spawned program. -/
theorem terminal_launcher_resolution_witness :
    (terminalInvocation none (some "urxvt -e") "ns1" "prod" "-it" "mypod"
        none ["ls"]).prog = "urxvt" :=
  ((terminal_launcher_resolution none (some "urxvt -e") "ns1" "prod" "-it"
    "mypod" none ["ls"]).2.2.2 "urxvt -e" "urxvt" ["-e"] rfl rfl).1
